import Mathlib

/-!
Shallow embedding of the yarra-supply-hub frontend logic that the claims
concern: the Kogan template export/download/apply API client
(src/frontend/src/api/download.ts), the page-level handlers of
KoganTemplateDataDownload.tsx, and the schedule editing logic of
SchedulePage.tsx together with updateSchedule from api/schedules.ts.

JavaScript conventions are made explicit: `Option` models possibly
undefined (or null) values, `jsOr`/`jsOrD` model the truthiness-based
`||` operator on strings (undefined, null and "" are falsy), and header
maps are functions from header name to optional value.
-/

namespace Yarra

/-- Header map of an HTTP response: lookup from header name to value,
absent headers giving none (models the axios headers object). -/
def Headers : Type := String → Option String

/-- JavaScript `a || b` on optional strings: undefined and "" are falsy. -/
def jsOr (a b : Option String) : Option String :=
  match a with
  | some s => if s = "" then b else some s
  | none => b

/-- JavaScript `a || d` where d is a plain string default. -/
def jsOrD (a : Option String) (d : String) : String :=
  match a with
  | some s => if s = "" then d else s
  | none => d

/-- JavaScript `Number(s)` on a string; none models NaN. -/
def jsNumber (s : String) : Option Int := s.toInt?

/-- Client-side export job summary: KoganExportJobSummary of
types/koganTemplateDownload.ts, with the extra fields api/download.ts
reads and writes (status, timestamps, actors). A row_count of none
models NaN; none in the nullable string fields models null/undefined. -/
structure KoganExportJobSummary where
  job_id : String
  file_name : String
  row_count : Option Int
  country_type : String
  status : String
  exported_at : Option String
  applied_at : Option String
  created_by : Option String
  applied_by : Option String
deriving DecidableEq

/-- Partial KoganExportJobSummary: each field optionally present. Null
values of the nullable fields are collapsed into none: the code reads
them only through `||` and `??`, which treat null and undefined alike. -/
structure PartialSummary where
  job_id : Option String := none
  file_name : Option String := none
  row_count : Option Int := none
  country_type : Option String := none
  status : Option String := none
  exported_at : Option String := none
  applied_at : Option String := none
  created_by : Option String := none
  applied_by : Option String := none
deriving DecidableEq

/-- Lowercasing of a header key, character by character (behaves as the
source's key.toLowerCase() on the ASCII keys in play). -/
def strToLower (s : String) : String := String.mk (s.toList.map Char.toLower)

/-- The header helper inside parseJobSummaryFromHeaders: look the key up
lowercased first, then as given (the axios getter branch of the source
performs the same two lookups, so it collapses into this one). -/
def headerGet (headers : Headers) (key : String) : Option String :=
  match headers (strToLower key) with
  | some v => some v
  | none => headers key

/-- The ternary `raw ? Number(raw) : fallback.row_count ?? 0` for the
x-kogan-export-rows header. -/
def rowFromHeader (hv : Option String) (fb : Option Int) : Option Int :=
  match hv with
  | some s => if s = "" then some (fb.getD 0) else jsNumber s
  | none => some (fb.getD 0)

/-- The ternary `raw ? raw : null` applied to the timestamp headers. -/
def truthyOrNull (a : Option String) : Option String :=
  match a with
  | some s => if s = "" then none else some s
  | none => none

/-- parseJobSummaryFromHeaders from api/download.ts: each metadata field
is read from its x-kogan-export-* header with `||`-fallback to the
locally-held partial summary and a final fixed default. -/
def parseJobSummaryFromHeaders (headers : Headers) (fallback : PartialSummary) :
    KoganExportJobSummary :=
  let header := fun k => headerGet headers k
  let jobId := jsOrD (jsOr (header "x-kogan-export-job") fallback.job_id) ""
  let rowCount := rowFromHeader (header "x-kogan-export-rows") fallback.row_count
  let countryRaw := jsOr (header "x-kogan-export-country") fallback.country_type
  let status := jsOrD (jsOr (header "x-kogan-export-status") fallback.status) "exported"
  let appliedAt := truthyOrNull (jsOr (header "x-kogan-export-applied-at") fallback.applied_at)
  let exportedAt := truthyOrNull (jsOr (header "x-kogan-export-exported-at") fallback.exported_at)
  { job_id := jobId
    file_name := jsOrD fallback.file_name ""
    row_count := rowCount
    country_type := jsOrD (jsOr countryRaw fallback.country_type) "AU"
    status := status
    exported_at := exportedAt
    applied_at := appliedAt
    created_by := fallback.created_by
    applied_by := fallback.applied_by }

/-- Case-insensitive character equality, for the /i regex flag. -/
def ciEq (a b : Char) : Bool := a.toLower = b.toLower

/-- Does the pattern occur, case-insensitively, at the head of the text. -/
def ciStarts : List Char → List Char → Bool
  | [], _ => true
  | _ :: _, [] => false
  | p :: ps, c :: cs => ciEq p c && ciStarts ps cs

/-- Characters admitted by the capture group `[^";]+` of the
content-disposition filename regex. -/
def cdNameChar (c : Char) : Bool := c ≠ '"' && c ≠ ';'

/-- The literal UTF-8 marker (two apostrophes at the end) of the regex. -/
def utf8Marker : List Char := ['U', 'T', 'F', '-', '8', '\u0027', '\u0027']

/-- The nonempty greedy run for `[^";]+`, none when the first character is
already excluded. -/
def cdRun (s : List Char) : Option (List Char) :=
  let run := s.takeWhile cdNameChar
  if run.isEmpty then none else some run

/-- The optional quote followed by the capture group. Backtracking over
the optional quote can never rescue a failure, because an unconsumed
quote is itself excluded from the capture run. -/
def cdQuoteRun (s : List Char) : Option (List Char) :=
  match s with
  | '"' :: rest => cdRun rest
  | _ => cdRun s

/-- After the equals sign: optionally consume the UTF-8 marker (greedy,
with backtracking into leaving it unconsumed), optional quote, capture. -/
def cdAfterEq (s : List Char) : Option (List Char) :=
  if ciStarts utf8Marker s then
    match cdQuoteRun (s.drop 7) with
    | some cap => some cap
    | none => cdQuoteRun s
  else cdQuoteRun s

/-- One attempt of /filename\*?=(?:UTF-8 marker)?"?([^";]+)"?/i at a fixed
position: the literal filename (case-insensitive), an optional star that
must be followed by the equals sign, then the tail of the pattern. -/
def cdAtPos (s : List Char) : Option (List Char) :=
  if ciStarts ("filename".toList) s then
    match s.drop 8 with
    | '*' :: '=' :: t => cdAfterEq t
    | '=' :: t => cdAfterEq t
    | _ => none
  else none

/-- Leftmost-match scan of the regex over the whole text. -/
def cdScan : List Char → Option (List Char)
  | [] => none
  | c :: cs =>
    match cdAtPos (c :: cs) with
    | some cap => some cap
    | none => cdScan cs

/-- The first capture group of `cd.match(/filename\*?=...)`, none when the
regex does not match anywhere in the header value. -/
def cdFilenameMatch (cd : String) : Option String :=
  (cdScan cd.toList).map fun cs => String.mk cs

/-- Value of a hexadecimal digit. -/
def hexVal (c : Char) : Option Nat :=
  if 48 ≤ c.toNat ∧ c.toNat ≤ 57 then some (c.toNat - 48)
  else if 97 ≤ c.toNat ∧ c.toNat ≤ 102 then some (c.toNat - 97 + 10)
  else if 65 ≤ c.toNat ∧ c.toNat ≤ 70 then some (c.toNat - 65 + 10)
  else none

/-- Read one %XX escape at the head of the text, returning its byte. -/
def pctByte : List Char → Option (Nat × List Char)
  | '%' :: h1 :: h2 :: rest => do
    let a ← hexVal h1
    let b ← hexVal h2
    pure (16 * a + b, rest)
  | _ => none

/-- Read one UTF-8 continuation byte, which must itself be a %XX escape. -/
def contByte (s : List Char) : Option (Nat × List Char) :=
  match pctByte s with
  | some (b, rest) => if 128 ≤ b ∧ b < 192 then some (b % 64, rest) else none
  | none => none

/-- Decode the UTF-8 sequence led by the byte b0 (already consumed) into a
code point, rejecting overlong forms, surrogates and out-of-range values
the way decodeURIComponent does. -/
def decodeEscaped (b0 : Nat) (s : List Char) : Option (Nat × List Char) :=
  if b0 < 128 then some (b0, s)
  else if b0 < 192 then none
  else if b0 < 224 then do
    let (c1, s1) ← contByte s
    let cp := (b0 % 32) * 64 + c1
    if cp < 128 then none else some (cp, s1)
  else if b0 < 240 then do
    let (c1, s1) ← contByte s
    let (c2, s2) ← contByte s1
    let cp := (b0 % 16) * 4096 + c1 * 64 + c2
    if cp < 2048 ∨ (55296 ≤ cp ∧ cp ≤ 57343) then none else some (cp, s2)
  else if b0 < 248 then do
    let (c1, s1) ← contByte s
    let (c2, s2) ← contByte s1
    let (c3, s3) ← contByte s2
    let cp := (b0 % 8) * 262144 + c1 * 4096 + c2 * 64 + c3
    if cp < 65536 ∨ 1114111 < cp then none else some (cp, s3)
  else none

/-- Fuelled scan for decodeURIComponent: literal characters pass through,
%-escapes decode as UTF-8; the fuel (the input length) only bounds the
recursion and is never exhausted on the inputs used. -/
def decodeURIAux : Nat → List Char → Option (List Char)
  | _, [] => some []
  | 0, _ :: _ => none
  | fuel + 1, '%' :: rest => do
    let (b0, s1) ← pctByte ('%' :: rest)
    let (cp, s2) ← decodeEscaped b0 s1
    let tail ← decodeURIAux fuel s2
    pure (Char.ofNat cp :: tail)
  | fuel + 1, c :: rest => do
    let tail ← decodeURIAux fuel rest
    pure (c :: tail)

/-- JavaScript decodeURIComponent; none models a thrown URIError. -/
def decodeURIComponent (s : String) : Option String :=
  (decodeURIAux s.toList.length s.toList).map fun cs => String.mk cs

/-- The filename selection of downloadKoganTemplateCSVByJob: regex-parse
the content-disposition value, percent-decode the capture, and fall back
first to the caller-supplied name, then to kogan_export_(jobId).csv.
A none result models the URIError thrown by decodeURIComponent. -/
def downloadFilename (cd : String) (fallbackFileName : Option String) (jobId : String) :
    Option String :=
  match cdFilenameMatch cd with
  | none => some (jsOrD fallbackFileName ("kogan_export_" ++ jobId ++ ".csv"))
  | some cap =>
    match decodeURIComponent cap with
    | none => none
    | some name =>
      some (jsOrD (jsOr (some name) fallbackFileName) ("kogan_export_" ++ jobId ++ ".csv"))

/-- Error carried by a rejected HTTP call (or a thrown URIError). -/
structure ApiError where
  msg : String
deriving DecidableEq

/-- The no-dirty response of the create-export endpoint; the client reads
only its detail field. -/
structure NoDirtyResponse where
  detail : String
deriving DecidableEq

/-- The create-export response union
KoganExportJobSummary | KoganExportNoDirtyResponse. -/
inductive CreateResponse where
  | summary (s : KoganExportJobSummary)
  | noDirty (nd : NoDirtyResponse)
deriving DecidableEq

/-- The guard `"detail" in job && job.detail === "no_dirty_sku"`; a plain
summary carries no detail property. -/
def isNoDirtySignal : CreateResponse → Bool
  | .noDirty nd => nd.detail = "no_dirty_sku"
  | .summary _ => false

/-- JavaScript property read `job.job_id` on the union value: undefined on
a no-dirty response. -/
def jobIdOf : CreateResponse → Option String
  | .summary s => some s.job_id
  | .noDirty _ => none

/-- JavaScript property read `job.file_name` on the union value. -/
def fileNameOf : CreateResponse → Option String
  | .summary s => some s.file_name
  | .noDirty _ => none

/-- Spreading a full summary where a Partial is expected: every field
present (a NaN row_count collapses to absent, which the single `??` read
treats the same way as the source treats NaN-free server JSON). -/
def KoganExportJobSummary.toPartial (s : KoganExportJobSummary) : PartialSummary :=
  { job_id := some s.job_id
    file_name := some s.file_name
    row_count := s.row_count
    country_type := some s.country_type
    status := some s.status
    exported_at := s.exported_at
    applied_at := s.applied_at
    created_by := s.created_by
    applied_by := s.applied_by }

/-- The spread `{ job_id: jobId, file_name: filename, ...baseline }`:
fields present in the baseline win over the two literals. -/
def mergeFallback (jobId : Option String) (filename : String) (baseline : PartialSummary) :
    PartialSummary :=
  { baseline with
    job_id := baseline.job_id.orElse fun _ => jobId
    file_name := baseline.file_name.orElse fun _ => some filename }

/-- A network request the client issues; createExport and applyExport are
POSTs, downloadExport is the GET of the artifact. -/
inductive Request where
  | createExport (country : String)
  | downloadExport (jobId : Option String)
  | applyExport (jobId : Option String)
deriving DecidableEq

/-- Response of the download GET; only its headers matter to the logic. -/
structure DownloadResponse where
  headers : Headers

/-- createKoganTemplateExport: POST the create request; the outcome of the
call is injected as res. -/
def createKoganTemplateExport (country : String) (res : Except ApiError CreateResponse) :
    List Request × Except ApiError CreateResponse :=
  ([Request.createExport country], res)

/-- The string interpolation of a possibly-undefined job id into the
generated file name template. -/
def jobIdStr (jobId : Option String) : String :=
  match jobId with
  | some s => s
  | none => "undefined"

/-- downloadKoganTemplateCSVByJob: GET the artifact, choose the file name
from the content-disposition header with fallbacks, and parse the summary
from the response headers over the locally-held fallback object. -/
def downloadKoganTemplateCSVByJob (jobId : Option String) (fallbackFileName : Option String)
    (baseline : PartialSummary) (res : Except ApiError DownloadResponse) :
    List Request × Except ApiError KoganExportJobSummary :=
  ([Request.downloadExport jobId],
   match res with
   | .error e => .error e
   | .ok r =>
     let cd := jsOrD (r.headers "content-disposition") ""
     match downloadFilename cd fallbackFileName (jobIdStr jobId) with
     | none => .error { msg := "URIError" }
     | some filename =>
       .ok (parseJobSummaryFromHeaders r.headers (mergeFallback jobId filename baseline)))

/-- Spreading the create response as the Partial baseline of the download
call: a no-dirty object contributes no summary fields. -/
def partialOf : CreateResponse → PartialSummary
  | .summary s => s.toPartial
  | .noDirty _ => {}

/-- Outcomes of the two network calls the combined operation can issue. -/
structure DownloadEnv where
  createResult : Except ApiError CreateResponse
  downloadResult : Except ApiError DownloadResponse

/-- downloadKoganTemplateCSV: create the export job, return the no-dirty
response untouched when signalled, otherwise download by the created id
with the created job as fallback baseline. -/
def downloadKoganTemplateCSV (country : String) (env : DownloadEnv) :
    List Request × Except ApiError CreateResponse :=
  match createKoganTemplateExport country env.createResult with
  | (reqs1, .error e) => (reqs1, .error e)
  | (reqs1, .ok job) =>
    if isNoDirtySignal job then (reqs1, .ok job)
    else
      match downloadKoganTemplateCSVByJob (jobIdOf job) (fileNameOf job)
          (partialOf job) env.downloadResult with
      | (reqs2, r2) => (reqs1 ++ reqs2, r2.map CreateResponse.summary)

/-- Result of the apply endpoint. -/
structure KoganExportApplyResult where
  job_id : String
  status : String
  applied_at : Option String
deriving DecidableEq

/-- applyKoganTemplateExport: POST the apply request for a job id. -/
def applyKoganTemplateExport (jobId : Option String)
    (res : Except ApiError KoganExportApplyResult) :
    List Request × Except ApiError KoganExportApplyResult :=
  ([Request.applyExport jobId], res)

/-- The CountryType enumeration. -/
inductive CountryType where
  | AU
  | NZ
deriving DecidableEq

/-- The country as the string it interpolates to. -/
def CountryType.str : CountryType → String
  | .AU => "AU"
  | .NZ => "NZ"

/-- The per-country busy flags of the page. -/
structure OpFlags where
  download : Bool
  redownload : Bool
  apply : Bool
deriving DecidableEq

/-- The operation key passed to setLoading. -/
inductive OpKey where
  | download
  | redownload
  | apply
deriving DecidableEq

/-- One flag update, as `{ ...prev[country], [key]: value }`. -/
def OpFlags.set (f : OpFlags) (k : OpKey) (v : Bool) : OpFlags :=
  match k with
  | .download => { f with download := v }
  | .redownload => { f with redownload := v }
  | .apply => { f with apply := v }

/-- State of KoganTemplateDataDownload: the tracked job per country and
the busy flags per country. The tracked slot holds whatever value the
code assigns, hence the create-response union rather than the declared
summary type. -/
structure PageState where
  jobs : CountryType → Option CreateResponse
  loading : CountryType → OpFlags

/-- setJobs with a single country overwritten. -/
def setJob (st : PageState) (country : CountryType) (v : Option CreateResponse) : PageState :=
  { st with jobs := fun c => if c = country then v else st.jobs c }

/-- setLoading from the page component. -/
def setLoading (st : PageState) (country : CountryType) (k : OpKey) (v : Bool) : PageState :=
  { st with loading := fun c => if c = country then (st.loading c).set k v else st.loading c }

/-- Kinds of antd message toasts the handlers emit (text elided). -/
inductive UiMessage where
  | success
  | error
  | warning
deriving DecidableEq

/-- handleDownload: raise the busy flag, run the combined operation, store
the returned value in jobs[country] and toast success, or toast the error;
finally clear the busy flag. -/
def handleDownload (st : PageState) (country : CountryType) (env : DownloadEnv) :
    PageState × List Request × List UiMessage :=
  let st1 := setLoading st country OpKey.download true
  match downloadKoganTemplateCSV country.str env with
  | (reqs, .ok job) =>
    (setLoading (setJob st1 country (some job)) country OpKey.download false,
     reqs, [UiMessage.success])
  | (reqs, .error _) =>
    (setLoading st1 country OpKey.download false, reqs, [UiMessage.error])

/-- handleRedownload: warn and stop when no job is tracked; otherwise GET
the artifact again by the tracked id, discarding the returned summary. -/
def handleRedownload (st : PageState) (country : CountryType)
    (res : Except ApiError DownloadResponse) :
    PageState × List Request × List UiMessage :=
  match st.jobs country with
  | none => (st, [], [UiMessage.warning])
  | some job =>
    let st1 := setLoading st country OpKey.redownload true
    match downloadKoganTemplateCSVByJob (jobIdOf job) (fileNameOf job) {} res with
    | (reqs, .ok _) =>
      (setLoading st1 country OpKey.redownload false, reqs, [UiMessage.success])
    | (reqs, .error _) =>
      (setLoading st1 country OpKey.redownload false, reqs, [UiMessage.error])

/-- handleApply: warn and stop when no job is tracked; otherwise POST the
apply request and clear the tracked job on success. -/
def handleApply (st : PageState) (country : CountryType)
    (res : Except ApiError KoganExportApplyResult) :
    PageState × List Request × List UiMessage :=
  match st.jobs country with
  | none => (st, [], [UiMessage.warning])
  | some job =>
    let st1 := setLoading st country OpKey.apply true
    match applyKoganTemplateExport (jobIdOf job) res with
    | (reqs, .ok _) =>
      (setLoading (setJob st1 country none) country OpKey.apply false,
       reqs, [UiMessage.success])
    | (reqs, .error _) =>
      (setLoading st1 country OpKey.apply false, reqs, [UiMessage.error])

/-- Day-of-week enumeration of types/schedule.ts. -/
inductive Dow where
  | MON
  | TUE
  | WED
  | THU
  | FRI
  | SAT
  | SUN
deriving DecidableEq

/-- Schedule record of types/schedule.ts. A timezone of none models an
absent value (the TS type requires a string, but the client defends with
`||`, so empty and absent behave alike). -/
structure Schedule where
  key : String
  label : Option String
  enabled : Bool
  day_of_week : Dow
  hour : Nat
  minute : Nat
  every_2_weeks : Bool
  timezone : Option String
  updated_at : Option String
deriving DecidableEq

/-- The baseline ScheduleForm captures at mount (with enabled a required
boolean, the source's `initial.enabled ?? false` is the identity). -/
structure ScheduleBaseline where
  enabled : Bool
  day_of_week : Dow
  hour : Nat
  minute : Nat
deriving DecidableEq

/-- The baseline of a schedule record. -/
def mkBaseline (initial : Schedule) : ScheduleBaseline :=
  { enabled := initial.enabled
    day_of_week := initial.day_of_week
    hour := initial.hour
    minute := initial.minute }

/-- Live form field values as form.getFieldsValue returns them: any field
may be undefined, and the time value carries an hour and a minute exactly
when it is a dayjs value. -/
structure ScheduleFormValues where
  enabled : Option Bool
  day_of_week : Option Dow
  time : Option (Nat × Nat)
deriving DecidableEq

/-- handleValuesChange of ScheduleForm: recompute the dirty flag from the
current values against the baseline; a non-dayjs time contributes the
baseline hour and minute. -/
def handleValuesChange (b : ScheduleBaseline) (v : ScheduleFormValues) : Bool :=
  let h := match v.time with
    | some t => t.1
    | none => b.hour
  let m := match v.time with
    | some t => t.2
    | none => b.minute
  decide (v.enabled.getD false ≠ b.enabled)
    || decide (v.day_of_week.getD b.day_of_week ≠ b.day_of_week)
    || decide (h ≠ b.hour) || decide (m ≠ b.minute)

/-- The submitted form values onFinish (the required rules guarantee the
fields are present, and the time is a dayjs value read via hour/minute). -/
structure ScheduleSaveValues where
  enabled : Bool
  day_of_week : Dow
  time : Nat × Nat
deriving DecidableEq

/-- The payload onSave builds: the server record with the four editable
fields overwritten by the submitted values, the rest kept. -/
def onSavePayload (s : Schedule) (values : ScheduleSaveValues) : Schedule :=
  { s with
    enabled := values.enabled
    day_of_week := values.day_of_week
    hour := values.time.1
    minute := values.time.2 }

/-- Body of the schedule PUT: the record minus key, label and updated_at. -/
structure SchedulePutBody where
  enabled : Bool
  day_of_week : Dow
  hour : Nat
  minute : Nat
  every_2_weeks : Bool
  timezone : String
deriving DecidableEq

/-- updateSchedule from api/schedules.ts: destructure key, label and
updated_at away, default a falsy timezone, PUT to /schedules/(key). -/
def updateSchedule (key : String) (payload : Schedule) : String × SchedulePutBody :=
  ("/schedules/" ++ key,
   { enabled := payload.enabled
     day_of_week := payload.day_of_week
     hour := payload.hour
     minute := payload.minute
     every_2_weeks := payload.every_2_weeks
     timezone := jsOrD payload.timezone "Australia/Sydney" })

/-- The save path of SchedulesPage: onSave builds the payload and the
mutation sends updateSchedule(payload.key, payload). -/
def saveSchedule (s : Schedule) (values : ScheduleSaveValues) : String × SchedulePutBody :=
  let payload := onSavePayload s values
  updateSchedule payload.key payload

/-- Modelled from the spec, for C9 as amended: a present, non-empty value
wins; an absent or empty value falls through. -/
def pickPresent (fv : Option String) (d : String) : String :=
  match fv with
  | some t => if t ≠ "" then t else d
  | none => d

/-- Modelled from the spec, for C9 as amended: the header value when
present and non-empty, else the fallback value when present and
non-empty, else the fixed default. -/
def pickField (hv fv : Option String) (d : String) : String :=
  match hv with
  | some s => if s ≠ "" then s else pickPresent fv d
  | none => pickPresent fv d

/-- Modelled from the spec, for C9 as amended: the timestamp fields,
whose empty or missing values become null. -/
def pickTimeField (hv fv : Option String) : Option String :=
  match hv with
  | some s =>
    if s ≠ "" then some s
    else
      match fv with
      | some t => if t ≠ "" then some t else none
      | none => none
  | none =>
    match fv with
    | some t => if t ≠ "" then some t else none
    | none => none

/-- Modelled from the spec, for C9 as amended: the row count is the
numeric parse of a present non-empty header, else the fallback count,
else zero. -/
def pickRowField (hv : Option String) (fb : Option Int) : Option Int :=
  match hv with
  | some s => if s ≠ "" then jsNumber s else some (fb.getD 0)
  | none => some (fb.getD 0)

/-- Modelled from the spec, for C9 as amended: field-wise selection of
header over fallback over fixed default. -/
def specSummaryOfHeaders (h : Headers) (f : PartialSummary) : KoganExportJobSummary :=
  { job_id := pickField (headerGet h "x-kogan-export-job") f.job_id ""
    file_name := pickPresent f.file_name ""
    row_count := pickRowField (headerGet h "x-kogan-export-rows") f.row_count
    country_type := pickField (headerGet h "x-kogan-export-country") f.country_type "AU"
    status := pickField (headerGet h "x-kogan-export-status") f.status "exported"
    exported_at := pickTimeField (headerGet h "x-kogan-export-exported-at") f.exported_at
    applied_at := pickTimeField (headerGet h "x-kogan-export-applied-at") f.applied_at
    created_by := f.created_by
    applied_by := f.applied_by }

/-- Modelled from the spec, for C5 as amended: the fallback name when the
header yields nothing is the caller-supplied name when present and
non-empty, else the generated kogan_export_(jobId).csv. -/
def specFallbackName (fallbackFileName : Option String) (jobId : String) : String :=
  match fallbackFileName with
  | some s => if s ≠ "" then s else "kogan_export_" ++ jobId ++ ".csv"
  | none => "kogan_export_" ++ jobId ++ ".csv"

/-- Modelled from the spec, for C6 as amended: the PUT body with the four
editable fields from the form, every_2_weeks passed through, and the
timezone passed through except that an absent or empty one becomes
Australia/Sydney. -/
def specPutBody (s : Schedule) (v : ScheduleSaveValues) : SchedulePutBody :=
  { enabled := v.enabled
    day_of_week := v.day_of_week
    hour := v.time.1
    minute := v.time.2
    every_2_weeks := s.every_2_weeks
    timezone :=
      match s.timezone with
      | some t => if t ≠ "" then t else "Australia/Sydney"
      | none => "Australia/Sydney" }

/-- Repeated redownloads: run handleRedownload n times for one country,
each round with its own network outcome. -/
def iterRedownload (envs : Nat → Except ApiError DownloadResponse) (country : CountryType) :
    Nat → PageState → PageState
  | 0, st => st
  | n + 1, st => iterRedownload envs country n (handleRedownload st country (envs n)).1

/-- Does the first list occur at the head of the second. -/
def listStarts : List Char → List Char → Bool
  | [], _ => true
  | _ :: _, [] => false
  | a :: as1, b :: bs => a == b && listStarts as1 bs

/-- Does the needle occur contiguously anywhere in the haystack. -/
def listHas (needle : List Char) : List Char → Bool
  | [] => needle.isEmpty
  | c :: t => listStarts needle (c :: t) || listHas needle t

/-- Substring test on strings (used to state what a name is composed of). -/
def strContains (hay needle : String) : Bool := listHas needle.toList hay.toList

theorem jsOrD_eq_pickPresent (a : Option String) (d : String) : jsOrD a d = pickPresent a d := by
  cases a with
  | none => rfl
  | some s => by_cases hs : s = "" <;> simp [jsOrD, pickPresent, hs]

theorem jsOrD_jsOr_eq_pickField (a b : Option String) (d : String) :
    jsOrD (jsOr a b) d = pickField a b d := by
  cases a with
  | none => simp [jsOr, pickField, jsOrD_eq_pickPresent]
  | some s =>
    by_cases hs : s = ""
    · subst hs
      show jsOrD b d = pickField (some "") b d
      rw [jsOrD_eq_pickPresent]
      simp [pickField]
    · simp [jsOr, jsOrD, pickField, hs]

theorem pickPresent_jsOr_eq_pickField (a b : Option String) (d : String) :
    pickPresent (jsOr a b) d = pickField a b d := by
  rw [← jsOrD_eq_pickPresent, jsOrD_jsOr_eq_pickField]

theorem pickField_jsOr (a b : Option String) (d : String) :
    pickField (jsOr a b) b d = pickField a b d := by
  cases a with
  | none =>
    cases b with
    | none => rfl
    | some t => by_cases ht : t = "" <;> simp [jsOr, pickField, pickPresent, ht]
  | some s =>
    by_cases hs : s = "" <;> cases b with
    | none => simp [jsOr, pickField, pickPresent, hs]
    | some t =>
      by_cases ht : t = "" <;> simp [jsOr, pickField, pickPresent, hs, ht]

theorem truthyOrNull_jsOr_eq_pickTimeField (a b : Option String) :
    truthyOrNull (jsOr a b) = pickTimeField a b := by
  cases a with
  | none =>
    cases b with
    | none => rfl
    | some t => by_cases ht : t = "" <;> simp [jsOr, truthyOrNull, pickTimeField, ht]
  | some s =>
    by_cases hs : s = "" <;> cases b with
    | none => simp [jsOr, truthyOrNull, pickTimeField, hs]
    | some t =>
      by_cases ht : t = "" <;> simp [jsOr, truthyOrNull, pickTimeField, hs, ht]

theorem rowFromHeader_eq_pickRowField (hv : Option String) (fb : Option Int) :
    rowFromHeader hv fb = pickRowField hv fb := by
  cases hv with
  | none => rfl
  | some s => by_cases hs : s = "" <;> simp [rowFromHeader, pickRowField, hs]

/-- C9 counterexample: the claim reads every present header value into the
summary, but a present header whose value is the empty string is falsy
under the source's `||` chain, so the fallback summary wins instead: with
x-kogan-export-status present as "" and a fallback status of "applied",
the parsed status is "applied", not the present header value "". -/
theorem c9_empty_header_value_falls_back :
    headerGet (fun k => if k = "x-kogan-export-status" then some "" else none)
      "x-kogan-export-status" = some ""
    ∧ (parseJobSummaryFromHeaders
        (fun k => if k = "x-kogan-export-status" then some "" else none)
        { status := some "applied" }).status = "applied"
    ∧ ("applied" : String) ≠ "" := by
  refine ⟨by decide, by decide, by decide⟩

/-- C9 as amended: parseJobSummaryFromHeaders returns, for each metadata
field, the header value when the corresponding x-kogan-export-* header is
present with a non-empty value (numerically parsed for the row count),
otherwise the fallback summary's value when that is present (and
non-empty, for the string fields; empty timestamps become null), with the
fixed defaults when both are missing; absence never raises and the result
is always a complete summary, as stated by equality with the total
field-wise selection function. -/
theorem c9_amended_field_selection (h : Headers) (f : PartialSummary) :
    parseJobSummaryFromHeaders h f = specSummaryOfHeaders h f := by
  simp only [parseJobSummaryFromHeaders, specSummaryOfHeaders,
    jsOrD_eq_pickPresent, pickPresent_jsOr_eq_pickField,
    truthyOrNull_jsOr_eq_pickTimeField, rowFromHeader_eq_pickRowField,
    pickField_jsOr]

/-- C10: when a metadata field is absent from the headers and from the
fallback summary alike, parseJobSummaryFromHeaders silently substitutes
the fixed defaults: empty job_id and file_name, zero row count, country
AU, status exported, and null timestamps. -/
theorem c10_defaults_when_absent_everywhere (h : Headers) (f : PartialSummary) :
    (headerGet h "x-kogan-export-job" = none → f.job_id = none →
      (parseJobSummaryFromHeaders h f).job_id = "")
    ∧ (f.file_name = none → (parseJobSummaryFromHeaders h f).file_name = "")
    ∧ (headerGet h "x-kogan-export-rows" = none → f.row_count = none →
      (parseJobSummaryFromHeaders h f).row_count = some 0)
    ∧ (headerGet h "x-kogan-export-country" = none → f.country_type = none →
      (parseJobSummaryFromHeaders h f).country_type = "AU")
    ∧ (headerGet h "x-kogan-export-status" = none → f.status = none →
      (parseJobSummaryFromHeaders h f).status = "exported")
    ∧ (headerGet h "x-kogan-export-exported-at" = none → f.exported_at = none →
      (parseJobSummaryFromHeaders h f).exported_at = none)
    ∧ (headerGet h "x-kogan-export-applied-at" = none → f.applied_at = none →
      (parseJobSummaryFromHeaders h f).applied_at = none) := by
  refine ⟨?_, ?_, ?_, ?_, ?_, ?_, ?_⟩
  · intro h1 h2
    simp [parseJobSummaryFromHeaders, h1, h2, jsOr, jsOrD]
  · intro h2
    simp [parseJobSummaryFromHeaders, h2, jsOrD]
  · intro h1 h2
    simp [parseJobSummaryFromHeaders, h1, h2, rowFromHeader]
  · intro h1 h2
    simp [parseJobSummaryFromHeaders, h1, h2, jsOr, jsOrD]
  · intro h1 h2
    simp [parseJobSummaryFromHeaders, h1, h2, jsOr, jsOrD]
  · intro h1 h2
    simp [parseJobSummaryFromHeaders, h1, h2, jsOr, truthyOrNull]
  · intro h1 h2
    simp [parseJobSummaryFromHeaders, h1, h2, jsOr, truthyOrNull]

/-- C10 witness: with no headers at all and an empty fallback object every
defaulted field is observed concretely. -/
theorem c10_defaults_witness :
    (parseJobSummaryFromHeaders (fun _ => none) {}).job_id = ""
    ∧ (parseJobSummaryFromHeaders (fun _ => none) {}).file_name = ""
    ∧ (parseJobSummaryFromHeaders (fun _ => none) {}).row_count = some 0
    ∧ (parseJobSummaryFromHeaders (fun _ => none) {}).country_type = "AU"
    ∧ (parseJobSummaryFromHeaders (fun _ => none) {}).status = "exported"
    ∧ (parseJobSummaryFromHeaders (fun _ => none) {}).exported_at = none
    ∧ (parseJobSummaryFromHeaders (fun _ => none) {}).applied_at = none := by
  have h := c10_defaults_when_absent_everywhere (fun _ => none) {}
  exact ⟨h.1 rfl rfl, h.2.1 rfl, h.2.2.1 rfl rfl, h.2.2.2.1 rfl rfl,
    h.2.2.2.2.1 rfl rfl, h.2.2.2.2.2.1 rfl rfl, h.2.2.2.2.2.2 rfl rfl⟩

/-- C5 counterexample: with the content-disposition header absent and no
caller-supplied fallback name, the client generates kogan_export_J1.csv
from the job id alone; the name contains no country code (neither AU nor
NZ), so the deterministic fallback name is not composed of country and
timestamp as claimed. -/
theorem c5_fallback_name_uses_job_id_not_country :
    downloadFilename "" none "J1" = some "kogan_export_J1.csv"
    ∧ strContains "kogan_export_J1.csv" "AU" = false
    ∧ strContains "kogan_export_J1.csv" "NZ" = false := by
  refine ⟨by decide, by decide, by decide⟩

/-- C5 as amended: for every content-disposition value from which the
regex extracts no filename (in particular an absent header, which reads
as the empty string), the chosen name is the caller-supplied fallback
name when present and non-empty, else the deterministic generated name
composed of the job id, kogan_export_(jobId).csv; when the header is
present it is parsed, handling optional UTF-8 percent-encoding (shown on
a percent-encoded and on a plain quoted header). -/
theorem c5_amended_filename_selection (cd : String) (fallbackFileName : Option String)
    (jobId : String) :
    (cdFilenameMatch cd = none →
      downloadFilename cd fallbackFileName jobId
        = some (specFallbackName fallbackFileName jobId))
    ∧ downloadFilename "attachment; filename*=UTF-8\u0027\u0027kogan%20export.csv" none "J1"
      = some "kogan export.csv"
    ∧ downloadFilename "attachment; filename=\"report.csv\"" (some "x.csv") "J1"
      = some "report.csv" := by
  refine ⟨?_, by decide, by decide⟩
  intro hm
  rw [show downloadFilename cd fallbackFileName jobId
      = some (jsOrD fallbackFileName ("kogan_export_" ++ jobId ++ ".csv")) by
    simp [downloadFilename, hm]]
  rw [jsOrD_eq_pickPresent]
  cases fallbackFileName with
  | none => rfl
  | some s => by_cases hs : s = "" <;> simp [pickPresent, specFallbackName, hs]

/-- C5 witness: a concrete unparsable header value (inline, with a
caller-supplied fallback name) discharging the no-match hypothesis. -/
theorem c5_amended_witness :
    cdFilenameMatch "inline" = none
    ∧ downloadFilename "inline" (some "x.csv") "J1"
      = some (specFallbackName (some "x.csv") "J1") :=
  ⟨by decide, (c5_amended_filename_selection "inline" (some "x.csv") "J1").1 (by decide)⟩

/-- C6 counterexample: a present but empty timezone is falsy under the
source's `||`, so the PUT body carries Australia/Sydney instead of the
server-supplied value: the pass-through claimed for timezone fails at
timezone = "". -/
theorem c6_empty_timezone_is_rewritten :
    (saveSchedule
      { key := "price_reset", label := none, enabled := false, day_of_week := Dow.MON,
        hour := 3, minute := 0, every_2_weeks := true, timezone := some "",
        updated_at := none }
      { enabled := true, day_of_week := Dow.MON, time := (3, 0) }).2.timezone
      = "Australia/Sydney"
    ∧ some "" ≠ (none : Option String)
    ∧ ("Australia/Sydney" : String) ≠ "" := by
  refine ⟨by decide, by decide, by decide⟩

/-- C6 as amended: the update submitted on Save goes to /schedules/(key)
with a body that contains exactly enabled, day_of_week, hour and minute
from the current form values, every_2_weeks passed through unchanged, and
timezone passed through except that an absent or empty timezone becomes
Australia/Sydney; key, label and updated_at are omitted from the body,
the key appearing only in the path. -/
theorem c6_amended_put_body (s : Schedule) (v : ScheduleSaveValues) :
    saveSchedule s v = ("/schedules/" ++ s.key, specPutBody s v) := by
  cases hs : s.timezone with
  | none =>
    simp [saveSchedule, updateSchedule, onSavePayload, specPutBody, jsOrD, hs]
  | some t =>
    by_cases ht : t = "" <;>
      simp [saveSchedule, updateSchedule, onSavePayload, specPutBody, jsOrD, hs, ht]

/-- C2: on a field-change event with all fields present (the time being a
dayjs value with an hour and a minute), the recomputed dirty flag equals
exactly the four-way disjunction of differences against the baseline; and
being a pure function of current values against the baseline, current
values equal to the baseline yield false regardless of edit history. -/
theorem c2_dirty_flag_is_pointwise_diff (b : ScheduleBaseline) (e : Bool) (d : Dow)
    (hh mm : Nat) :
    handleValuesChange b { enabled := some e, day_of_week := some d, time := some (hh, mm) }
      = (decide (e ≠ b.enabled) || decide (d ≠ b.day_of_week)
        || decide (hh ≠ b.hour) || decide (mm ≠ b.minute))
    ∧ handleValuesChange b
        { enabled := some b.enabled, day_of_week := some b.day_of_week,
          time := some (b.hour, b.minute) } = false := by
  constructor
  · rfl
  · simp [handleValuesChange]

theorem setLoading_jobs (st : PageState) (country : CountryType) (k : OpKey) (v : Bool)
    (c : CountryType) : (setLoading st country k v).jobs c = st.jobs c := rfl

theorem handleRedownload_keeps_jobs (st : PageState) (country : CountryType)
    (res : Except ApiError DownloadResponse) (c : CountryType) :
    (handleRedownload st country res).1.jobs c = st.jobs c := by
  unfold handleRedownload
  cases hj : st.jobs country with
  | none => rfl
  | some job =>
    unfold downloadKoganTemplateCSVByJob
    cases res with
    | error e => rfl
    | ok r =>
      cases hdf : downloadFilename (jsOrD (r.headers "content-disposition") "")
          (fileNameOf job) (jobIdStr (jobIdOf job)) with
      | none => simp [hdf, setLoading_jobs]
      | some fn => simp [hdf, setLoading_jobs]

theorem iterRedownload_keeps_jobs (envs : Nat → Except ApiError DownloadResponse)
    (country : CountryType) (n : Nat) (st : PageState) (c : CountryType) :
    (iterRedownload envs country n st).jobs c = st.jobs c := by
  induction n generalizing st with
  | zero => rfl
  | succ m ih =>
    calc (iterRedownload envs country (m + 1) st).jobs c
        = (iterRedownload envs country m (handleRedownload st country (envs m)).1).jobs c := rfl
      _ = (handleRedownload st country (envs m)).1.jobs c := ih _
      _ = st.jobs c := handleRedownload_keeps_jobs st country (envs m) c

/-- C1 (code bug): with no tracked jobs and a Create outcome carrying the
no-dirty signal, handleDownload issues only the create POST and no
download GET (that half of the claim holds), yet it stores the no-dirty
response itself as the tracked job for the country and toasts success, so
jobs[AU] does not remain undefined as the claim and spec state. -/
theorem c1_no_dirty_response_is_stored_as_job :
    (handleDownload ⟨fun _ => none, fun _ => ⟨false, false, false⟩⟩ CountryType.AU
      ⟨Except.ok (CreateResponse.noDirty ⟨"no_dirty_sku"⟩), Except.error ⟨"unused"⟩⟩).2.1
      = [Request.createExport "AU"]
    ∧ (handleDownload ⟨fun _ => none, fun _ => ⟨false, false, false⟩⟩ CountryType.AU
      ⟨Except.ok (CreateResponse.noDirty ⟨"no_dirty_sku"⟩), Except.error ⟨"unused"⟩⟩).1.jobs
        CountryType.AU = some (CreateResponse.noDirty ⟨"no_dirty_sku"⟩)
    ∧ (handleDownload ⟨fun _ => none, fun _ => ⟨false, false, false⟩⟩ CountryType.AU
      ⟨Except.ok (CreateResponse.noDirty ⟨"no_dirty_sku"⟩), Except.error ⟨"unused"⟩⟩).2.2
      = [UiMessage.success] := by
  refine ⟨by decide, by decide, by decide⟩

/-- C3: when Create succeeds with an exported job summary and the combined
operation completes successfully with value j, handleDownload leaves the
tracked job for the country non-null, set to the returned value; and from
a state tracking a job, a successful Apply sets the tracked job for that
country back to none. -/
theorem c3_create_sets_job_apply_clears_job (st : PageState) (country : CountryType)
    (env : DownloadEnv) (s : KoganExportJobSummary) (j j2 : CreateResponse)
    (ares : KoganExportApplyResult) :
    (env.createResult = Except.ok (CreateResponse.summary s) →
      (downloadKoganTemplateCSV country.str env).2 = Except.ok j →
      (handleDownload st country env).1.jobs country = some j)
    ∧ (st.jobs country = some j2 →
      (handleApply st country (Except.ok ares)).1.jobs country = none) := by
  constructor
  · intro _ hok
    rcases hds : downloadKoganTemplateCSV country.str env with ⟨reqs, r⟩
    rw [hds] at hok
    simp only at hok
    subst hok
    simp [handleDownload, hds, setJob, setLoading]
  · intro hj
    simp [handleApply, hj, applyKoganTemplateExport, setJob, setLoading]

/-- C3 witness at a concrete run: create returns the summary J1, the
download GET succeeds with no metadata headers, so the stored job is the
summary itself; applying from that state clears the slot. -/
theorem c3_witness :
    (handleDownload ⟨fun _ => none, fun _ => ⟨false, false, false⟩⟩ CountryType.AU
      ⟨Except.ok (CreateResponse.summary
        ⟨"J1", "f.csv", some 42, "AU", "exported", none, none, none, none⟩),
       Except.ok ⟨fun _ => none⟩⟩).1.jobs CountryType.AU
      = some (CreateResponse.summary
        ⟨"J1", "f.csv", some 42, "AU", "exported", none, none, none, none⟩)
    ∧ (handleApply
        ⟨fun _ => some (CreateResponse.summary
          ⟨"J1", "f.csv", some 42, "AU", "exported", none, none, none, none⟩),
         fun _ => ⟨false, false, false⟩⟩ CountryType.AU
        (Except.ok ⟨"J1", "applied", some "2024-01-01T00:00:00Z"⟩)).1.jobs CountryType.AU
      = none := by
  constructor
  · exact (c3_create_sets_job_apply_clears_job
      ⟨fun _ => none, fun _ => ⟨false, false, false⟩⟩ CountryType.AU
      ⟨Except.ok (CreateResponse.summary
        ⟨"J1", "f.csv", some 42, "AU", "exported", none, none, none, none⟩),
       Except.ok ⟨fun _ => none⟩⟩
      ⟨"J1", "f.csv", some 42, "AU", "exported", none, none, none, none⟩
      (CreateResponse.summary
        ⟨"J1", "f.csv", some 42, "AU", "exported", none, none, none, none⟩)
      (CreateResponse.summary
        ⟨"J1", "f.csv", some 42, "AU", "exported", none, none, none, none⟩)
      ⟨"J1", "applied", some "2024-01-01T00:00:00Z"⟩).1 rfl rfl
  · exact (c3_create_sets_job_apply_clears_job
      ⟨fun _ => some (CreateResponse.summary
        ⟨"J1", "f.csv", some 42, "AU", "exported", none, none, none, none⟩),
       fun _ => ⟨false, false, false⟩⟩ CountryType.AU
      ⟨Except.ok (CreateResponse.summary
        ⟨"J1", "f.csv", some 42, "AU", "exported", none, none, none, none⟩),
       Except.ok ⟨fun _ => none⟩⟩
      ⟨"J1", "f.csv", some 42, "AU", "exported", none, none, none, none⟩
      (CreateResponse.summary
        ⟨"J1", "f.csv", some 42, "AU", "exported", none, none, none, none⟩)
      (CreateResponse.summary
        ⟨"J1", "f.csv", some 42, "AU", "exported", none, none, none, none⟩)
      ⟨"J1", "applied", some "2024-01-01T00:00:00Z"⟩).2 rfl

/-- C4: when no job is tracked for the country, Apply and Redownload both
short-circuit client-side: the state is returned untouched, no request is
issued, and the only effect is a user warning toast. -/
theorem c4_guard_short_circuits_without_request (st : PageState) (country : CountryType)
    (res : Except ApiError DownloadResponse) (ares : Except ApiError KoganExportApplyResult)
    (h : st.jobs country = none) :
    handleApply st country ares = (st, [], [UiMessage.warning])
    ∧ handleRedownload st country res = (st, [], [UiMessage.warning]) := by
  constructor
  · simp [handleApply, h]
  · simp [handleRedownload, h]

/-- C4 witness: from the empty page state both guards fire concretely. -/
theorem c4_witness :
    handleApply ⟨fun _ => none, fun _ => ⟨false, false, false⟩⟩ CountryType.AU
      (Except.error ⟨"unreached"⟩)
      = (⟨fun _ => none, fun _ => ⟨false, false, false⟩⟩, [], [UiMessage.warning])
    ∧ handleRedownload ⟨fun _ => none, fun _ => ⟨false, false, false⟩⟩ CountryType.AU
      (Except.error ⟨"unreached"⟩)
      = (⟨fun _ => none, fun _ => ⟨false, false, false⟩⟩, [], [UiMessage.warning]) :=
  c4_guard_short_circuits_without_request
    ⟨fun _ => none, fun _ => ⟨false, false, false⟩⟩ CountryType.AU
    (Except.error ⟨"unreached"⟩) (Except.error ⟨"unreached"⟩) rfl

/-- C7: for each export-lifecycle operation, when the underlying call
rejects, the handler emits exactly one error toast, the operation's busy
flag for that country ends cleared, and the tracked job of every country
is left unchanged, so a retry starts from the same state. -/
theorem c7_failure_preserves_jobs_and_clears_busy (st : PageState) (country : CountryType)
    (env : DownloadEnv) (res : Except ApiError DownloadResponse)
    (ares : Except ApiError KoganExportApplyResult) (j : CreateResponse) (e : ApiError) :
    ((downloadKoganTemplateCSV country.str env).2 = Except.error e →
      (∀ c, (handleDownload st country env).1.jobs c = st.jobs c)
      ∧ ((handleDownload st country env).1.loading country).download = false
      ∧ (handleDownload st country env).2.2 = [UiMessage.error])
    ∧ (st.jobs country = some j → res = Except.error e →
      (∀ c, (handleRedownload st country res).1.jobs c = st.jobs c)
      ∧ ((handleRedownload st country res).1.loading country).redownload = false
      ∧ (handleRedownload st country res).2.2 = [UiMessage.error])
    ∧ (st.jobs country = some j → ares = Except.error e →
      (∀ c, (handleApply st country ares).1.jobs c = st.jobs c)
      ∧ ((handleApply st country ares).1.loading country).apply = false
      ∧ (handleApply st country ares).2.2 = [UiMessage.error]) := by
  refine ⟨?_, ?_, ?_⟩
  · intro hfail
    rcases hds : downloadKoganTemplateCSV country.str env with ⟨reqs, r⟩
    rw [hds] at hfail
    simp only at hfail
    subst hfail
    refine ⟨fun c => ?_, ?_, ?_⟩ <;>
      simp [handleDownload, hds, setLoading, OpFlags.set]
  · intro hj hres
    subst hres
    refine ⟨fun c => ?_, ?_, ?_⟩ <;>
      simp [handleRedownload, hj, downloadKoganTemplateCSVByJob, setLoading, OpFlags.set]
  · intro hj hres
    subst hres
    refine ⟨fun c => ?_, ?_, ?_⟩ <;>
      simp [handleApply, hj, applyKoganTemplateExport, setLoading, OpFlags.set]

/-- C7 witness: a concrete rejected call for each of the three operations,
from a state tracking the J1 summary for both countries. -/
theorem c7_witness :
    ((handleDownload
      ⟨fun _ => some (CreateResponse.summary
        ⟨"J1", "f.csv", some 42, "AU", "exported", none, none, none, none⟩),
       fun _ => ⟨false, false, false⟩⟩ CountryType.AU
      ⟨Except.error ⟨"boom"⟩, Except.error ⟨"x"⟩⟩).1.jobs CountryType.AU
      = some (CreateResponse.summary
        ⟨"J1", "f.csv", some 42, "AU", "exported", none, none, none, none⟩))
    ∧ (((handleDownload
      ⟨fun _ => some (CreateResponse.summary
        ⟨"J1", "f.csv", some 42, "AU", "exported", none, none, none, none⟩),
       fun _ => ⟨false, false, false⟩⟩ CountryType.AU
      ⟨Except.error ⟨"boom"⟩, Except.error ⟨"x"⟩⟩).1.loading CountryType.AU).download = false)
    ∧ ((handleDownload
      ⟨fun _ => some (CreateResponse.summary
        ⟨"J1", "f.csv", some 42, "AU", "exported", none, none, none, none⟩),
       fun _ => ⟨false, false, false⟩⟩ CountryType.AU
      ⟨Except.error ⟨"boom"⟩, Except.error ⟨"x"⟩⟩).2.2 = [UiMessage.error])
    ∧ ((handleRedownload
      ⟨fun _ => some (CreateResponse.summary
        ⟨"J1", "f.csv", some 42, "AU", "exported", none, none, none, none⟩),
       fun _ => ⟨false, false, false⟩⟩ CountryType.AU
      (Except.error ⟨"boom"⟩)).1.jobs CountryType.NZ
      = some (CreateResponse.summary
        ⟨"J1", "f.csv", some 42, "AU", "exported", none, none, none, none⟩))
    ∧ (((handleRedownload
      ⟨fun _ => some (CreateResponse.summary
        ⟨"J1", "f.csv", some 42, "AU", "exported", none, none, none, none⟩),
       fun _ => ⟨false, false, false⟩⟩ CountryType.AU
      (Except.error ⟨"boom"⟩)).1.loading CountryType.AU).redownload = false)
    ∧ ((handleApply
      ⟨fun _ => some (CreateResponse.summary
        ⟨"J1", "f.csv", some 42, "AU", "exported", none, none, none, none⟩),
       fun _ => ⟨false, false, false⟩⟩ CountryType.AU
      (Except.error ⟨"boom"⟩)).1.jobs CountryType.AU
      = some (CreateResponse.summary
        ⟨"J1", "f.csv", some 42, "AU", "exported", none, none, none, none⟩))
    ∧ ((handleApply
      ⟨fun _ => some (CreateResponse.summary
        ⟨"J1", "f.csv", some 42, "AU", "exported", none, none, none, none⟩),
       fun _ => ⟨false, false, false⟩⟩ CountryType.AU
      (Except.error ⟨"boom"⟩)).2.2 = [UiMessage.error]) := by
  have h := c7_failure_preserves_jobs_and_clears_busy
    ⟨fun _ => some (CreateResponse.summary
      ⟨"J1", "f.csv", some 42, "AU", "exported", none, none, none, none⟩),
     fun _ => ⟨false, false, false⟩⟩ CountryType.AU
    ⟨Except.error ⟨"boom"⟩, Except.error ⟨"x"⟩⟩
    (Except.error ⟨"boom"⟩) (Except.error ⟨"boom"⟩)
    (CreateResponse.summary
      ⟨"J1", "f.csv", some 42, "AU", "exported", none, none, none, none⟩) ⟨"boom"⟩
  exact ⟨(h.1 rfl).1 CountryType.AU, (h.1 rfl).2.1, (h.1 rfl).2.2,
    (h.2.1 rfl rfl).1 CountryType.NZ, (h.2.1 rfl rfl).2.1,
    (h.2.2 rfl rfl).1 CountryType.AU, (h.2.2 rfl rfl).2.2⟩

/-- C8: with a job tracked for the country, one Redownload issues exactly
the single GET of the artifact for the tracked job id, and neither one
call nor n repeated calls alter the tracked job reference (hence its
status field) of any country: the tracked job stays exactly as it was
after Create. -/
theorem c8_redownload_preserves_client_state (st : PageState) (country : CountryType)
    (j : CreateResponse) (res : Except ApiError DownloadResponse)
    (envs : Nat → Except ApiError DownloadResponse) (n : Nat)
    (hj : st.jobs country = some j) :
    (handleRedownload st country res).2.1 = [Request.downloadExport (jobIdOf j)]
    ∧ (∀ c, (handleRedownload st country res).1.jobs c = st.jobs c)
    ∧ (∀ c, (iterRedownload envs country n st).jobs c = st.jobs c) := by
  refine ⟨?_, fun c => handleRedownload_keeps_jobs st country res c,
    fun c => iterRedownload_keeps_jobs envs country n st c⟩
  unfold handleRedownload
  rw [hj]
  unfold downloadKoganTemplateCSVByJob
  cases res with
  | error e => rfl
  | ok r =>
    cases hdf : downloadFilename (jsOrD (r.headers "content-disposition") "")
        (fileNameOf j) (jobIdStr (jobIdOf j)) with
    | none => simp [hdf]
    | some fn => simp [hdf]

/-- C8 witness: two repeated redownloads of the tracked J1 job leave the
tracked slot untouched, and one call issues exactly the GET for J1. -/
theorem c8_witness :
    ((handleRedownload
      ⟨fun _ => some (CreateResponse.summary
        ⟨"J1", "f.csv", some 42, "AU", "exported", none, none, none, none⟩),
       fun _ => ⟨false, false, false⟩⟩ CountryType.AU
      (Except.ok ⟨fun _ => none⟩)).2.1 = [Request.downloadExport (some "J1")])
    ∧ ((handleRedownload
      ⟨fun _ => some (CreateResponse.summary
        ⟨"J1", "f.csv", some 42, "AU", "exported", none, none, none, none⟩),
       fun _ => ⟨false, false, false⟩⟩ CountryType.AU
      (Except.ok ⟨fun _ => none⟩)).1.jobs CountryType.AU
      = some (CreateResponse.summary
        ⟨"J1", "f.csv", some 42, "AU", "exported", none, none, none, none⟩))
    ∧ ((iterRedownload (fun _ => Except.ok ⟨fun _ => none⟩) CountryType.AU 2
      ⟨fun _ => some (CreateResponse.summary
        ⟨"J1", "f.csv", some 42, "AU", "exported", none, none, none, none⟩),
       fun _ => ⟨false, false, false⟩⟩).jobs CountryType.AU
      = some (CreateResponse.summary
        ⟨"J1", "f.csv", some 42, "AU", "exported", none, none, none, none⟩)) := by
  have h := c8_redownload_preserves_client_state
    ⟨fun _ => some (CreateResponse.summary
      ⟨"J1", "f.csv", some 42, "AU", "exported", none, none, none, none⟩),
     fun _ => ⟨false, false, false⟩⟩ CountryType.AU
    (CreateResponse.summary
      ⟨"J1", "f.csv", some 42, "AU", "exported", none, none, none, none⟩)
    (Except.ok ⟨fun _ => none⟩) (fun _ => Except.ok ⟨fun _ => none⟩) 2 rfl
  exact ⟨h.1, h.2.1 CountryType.AU, h.2.2 CountryType.AU⟩

end Yarra
